import Mathlib

/-!
Verification of the trust-scoring core of the Intuition reputation bot
(`src/bot.py`). The Python code is shallowly embedded: numeric values are
modelled as exact rationals (`ℚ`), timestamps as `Option ℤ` (the result of
the code's parsing step: `none` stands for an absent, empty or unparseable
timestamp string, `some t` for a timestamp parsed to unix seconds), and the
current wall clock as an explicit `ℤ` parameter `now` (the code reads
`datetime.now(timezone.utc)` inside `calculate_time_decay`).
-/

/-- Character-list prefix test, mirroring the semantics of Python substring
containment at one position. -/
def matchesAt : List Char → List Char → Bool
  | [], _ => true
  | _ :: _, [] => false
  | a :: as, b :: bs => a == b && matchesAt as bs

/-- `hasSub needle hay` : `needle` occurs as a contiguous substring of `hay`
(Python `needle in hay`); the empty needle occurs in every string. -/
def hasSub : List Char → List Char → Bool
  | needle, [] => needle.isEmpty
  | needle, b :: t => matchesAt needle (b :: t) || hasSub needle t

/-- Python `needle in hay` on strings. -/
def strIn (needle hay : String) : Bool :=
  hasSub needle.toList hay.toList

/-- Python `str.lower()` (modelled per-character via `Char.toLower`). -/
def pyLower (s : String) : String :=
  String.mk (s.toList.map Char.toLower)

/-- The `'high'` phrase set of `PREDICATE_WEIGHTS` (`src/bot.py` 45-54). -/
def highPhrases : List String :=
  ["is trusted by", "is verified by", "is endorsed by", "is vouched for by",
   "is recommended by", "has collaborated with", "is a core contributor to",
   "is a builder of"]

/-- The `'medium'` phrase set of `PREDICATE_WEIGHTS` (`src/bot.py` 56-64). -/
def mediumPhrases : List String :=
  ["is known by", "is followed by", "is a member of", "has worked with",
   "is affiliated with", "is connected to", "is associated with"]

/-- The `'low'` phrase set of `PREDICATE_WEIGHTS` (`src/bot.py` 66-71). -/
def lowPhrases : List String :=
  ["is aware of", "has met", "is interested in", "has interacted with"]

/-- The `'negative'` phrase set of `PREDICATE_WEIGHTS` (`src/bot.py` 73-81). -/
def negativePhrases : List String :=
  ["is distrusted by", "is flagged by", "is reported by", "is blocked by",
   "is scam", "is suspicious", "is fake"]

/-- `PREDICATE_WEIGHTS` from `src/bot.py` lines 43-82: the four weight
classes in the order they appear in the dict literal (Python dicts preserve
insertion order, so `.items()` visits high, medium, low, negative).  Within
a class the phrases are a Python `set`; its iteration order is irrelevant to
the result because all phrases of a class map to the same multiplier. -/
def PREDICATE_WEIGHTS : List (String × List String) :=
  [("high", highPhrases), ("medium", mediumPhrases),
   ("low", lowPhrases), ("negative", negativePhrases)]

/-- `WEIGHT_MULTIPLIERS` from `src/bot.py` lines 84-89 (a dict looked up
only at the four category keys). -/
def WEIGHT_MULTIPLIERS (category : String) : ℚ :=
  if category = "high" then 3/2
  else if category = "medium" then 1
  else if category = "low" then 1/2
  else if category = "negative" then -2
  else 1

/-- Inner loop of `get_predicate_weight`: does any curated phrase `p` of the
class satisfy `p in predicate_lower or predicate_lower in p`? -/
def categoryMatches (predicate_lower : String) (phrases : List String) : Bool :=
  phrases.any fun p => strIn p predicate_lower || strIn predicate_lower p

/-- Outer loop of `get_predicate_weight`: first matching category in table
order wins; if none matches, `WEIGHT_MULTIPLIERS['medium']`. -/
def findWeight (predicate_lower : String) : List (String × List String) → ℚ
  | [] => WEIGHT_MULTIPLIERS "medium"
  | (cat, phrases) :: rest =>
    if categoryMatches predicate_lower phrases then WEIGHT_MULTIPLIERS cat
    else findWeight predicate_lower rest

/-- `get_predicate_weight` from `src/bot.py` lines 253-260. -/
def get_predicate_weight (predicate : String) : ℚ :=
  findWeight (pyLower predicate) PREDICATE_WEIGHTS

/-- `TIME_DECAY_DAYS` from `src/bot.py` line 95. -/
def TIME_DECAY_DAYS : ℤ := 365

/-- `TIME_DECAY_FACTOR` from `src/bot.py` line 96. -/
def TIME_DECAY_FACTOR : ℚ := 1/2

/-- `calculate_time_decay` from `src/bot.py` lines 263-279.  The string
parsing (`datetime.fromisoformat` / `int(timestamp)`) is abstracted to its
result: `none` is a timestamp whose parse raised (caught by the bare
`except`, returning 1.0), `some t` a timestamp parsed to unix seconds `t`.
`days_old` mirrors Python's `(now - att_time).days`, which floors the
difference to whole days (`Int.fdiv`). -/
def calculate_time_decay (now : ℤ) : Option ℤ → ℚ
  | none => 1
  | some t =>
    let days_old := (now - t).fdiv 86400
    if days_old > TIME_DECAY_DAYS then TIME_DECAY_FACTOR else 1

/-- One attestation ("triple") as consumed by the scoring loop
(`src/bot.py` lines 586-599): the predicate label (absent modelled as `""`,
the code's default), the object label (absent modelled as `""`), the parsed
creation timestamp, and the backing vault's `total_shares` as parsed by
`float(att.get('vault', ...).get('total_shares', 0) or 0)` (an absent vault
or absent shares field contributes 0). -/
structure Attestation where
  predicate_label : String
  object_label : String
  created_at : Option ℤ
  vault_total_shares : ℚ
deriving DecidableEq

/-- One staking position (`src/bot.py` lines 439-462): only the `shares`
field is consumed downstream (via `float(p.get('shares', 0))`). -/
structure Position where
  shares : ℚ
deriving DecidableEq

/-- The `result` dict assembled by `fetch_comprehensive_data`
(`src/bot.py` lines 289-303): one field per key (`identity` is elided; the
code only copies its `label` and `created_at` into `label` and
`first_activity`). -/
structure AddressRecord where
  address : String
  label : Option String
  staked : ℚ
  activity_count : ℕ
  attestations_received : List Attestation
  attestations_given : List Attestation
  vouches : List Attestation
  positions : List Position
  trust_score : ℚ
  categories : List String
  first_activity : Option ℤ
  verified_builder : Bool
deriving DecidableEq

/-- 10^18, the fixed-point scaling divisor (`1e18` in the source). -/
def e18 : ℚ := 10 ^ 18

/-- Per-attestation stake bonus (`src/bot.py` lines 595-596):
`min(vault_shares / 10, 1.0)` where `vault_shares = total_shares / 1e18`. -/
def stakeBonus (att : Attestation) : ℚ :=
  min (att.vault_total_shares / e18 / 10) 1

/-- One iteration of the scoring loop (`src/bot.py` lines 586-599):
`weight * time_factor * (1 + stake_bonus)`.  The code computes
`time_factor = calculate_time_decay(created_at) if created_at else 1.0`;
both the falsy-string branch and the unparseable-string branch are `none`
here and both yield factor 1. -/
def attestationScore (now : ℤ) (att : Attestation) : ℚ :=
  get_predicate_weight att.predicate_label
    * calculate_time_decay now att.created_at
    * (1 + stakeBonus att)

/-- Round-half-to-even on an exact rational (the tie-breaking rule of
Python's `round`; the binary-float representation error of CPython floats
is not modelled — values are exact rationals throughout). -/
def roundHalfEven (q : ℚ) : ℤ :=
  let f := ⌊q⌋
  let r := q - f
  if r < 1/2 then f
  else if r > 1/2 then f + 1
  else if f % 2 = 0 then f else f + 1

/-- Python `round(x, 2)` on exact rationals. -/
def pyRound2 (q : ℚ) : ℚ :=
  (roundHalfEven (q * 100) : ℚ) / 100

/-- Activity bonus (`src/bot.py` lines 610-611): `min(activity / 10, 5.0)`. -/
def activityBonus (activity : ℕ) : ℚ :=
  min ((activity : ℚ) / 10) 5

/-- Staking tier bonus (`src/bot.py` lines 614-620). -/
def stakingTierBonus (staked : ℚ) : ℚ :=
  if staked > 100 then 5
  else if staked > 10 then 2
  else if staked > 0 then 1 else 0

/-- `calculate_trust_score` from `src/bot.py` lines 581-622, with the wall
clock `now` made explicit (the code reads it inside
`calculate_time_decay`). -/
def calculate_trust_score (now : ℤ) (data : AddressRecord) : ℚ :=
  let attScore := (data.attestations_received.map (attestationScore now)).sum
  let score := attScore
    + (data.vouches.length : ℚ) * 5
    + (if data.verified_builder then 10 else 0)
    + activityBonus data.activity_count
    + stakingTierBonus data.staked
  pyRound2 (max score 0)

/-- `extract_categories` from `src/bot.py` lines 625-647.  The code builds a
Python `set` and returns `list(categories)`, whose order is unspecified; the
embedding returns the matched categories in the fixed order in which the
source tests them (an empty `object_label` matches no nonempty keyword, so
the code's `if obj_label:` guard needs no separate case). -/
def categoryKeywords : List (String × List String) :=
  [("DeFi", ["defi", "finance", "lending", "dex", "yield"]),
   ("NFT", ["nft", "art", "collectible"]),
   ("DAO", ["dao", "governance", "vote"]),
   ("Builder", ["builder", "developer", "engineer", "code"]),
   ("Verified", ["verified", "trusted", "legitimate"]),
   ("Community", ["community", "contributor", "member"])]

/-- See `categoryKeywords`. -/
def extract_categories (data : AddressRecord) : List String :=
  (categoryKeywords.filter fun ck =>
    data.attestations_received.any fun att =>
      ck.2.any fun k => strIn k (pyLower att.object_label)).map Prod.fst

/-- An identity atom as read from query 1 (`src/bot.py` lines 331-335):
only `label` and `created_at` are consumed. -/
structure AtomInfo where
  label : Option String
  created_at : Option ℤ
deriving DecidableEq

/-- An account as read from query 4 (`src/bot.py` lines 473-486): the two
aggregate counts and the positions list. -/
structure AccountInfo where
  triples_count : ℕ
  deposits_count : ℕ
  positions : List Position
deriving DecidableEq

/-- The outcome of the six independent GraphQL sub-queries of
`fetch_comprehensive_data` (`src/bot.py` lines 308-570).  For each query,
`none` means the sub-query failed — a raised exception (network error,
timeout, malformed JSON) caught by the per-query `try/except`, or a non-200
HTTP status (the code only reads the body `if resp.status == 200`) — and
`some` carries the successfully parsed payload. -/
structure FetchOutcomes where
  identityQ : Option (List AtomInfo)
  receivedQ : Option (List Attestation)
  givenQ : Option (List Attestation)
  accountQ : Option (List AccountInfo)
  vouchesQ : Option (List Attestation)
  builderQ : Option (List Attestation)
deriving DecidableEq

/-- `fetch_comprehensive_data` from `src/bot.py` lines 286-578, as a
function of the sub-query outcomes.  Each sub-result overwrites its
zero-initialised field only on success (`src/bot.py` 289-303 initialises
the dict; each `try` block assigns on status 200); finally the trust score
and categories are computed from the assembled record (lines 572-576). -/
def fetch_comprehensive_data (now : ℤ) (address : String) (o : FetchOutcomes) :
    AddressRecord :=
  let addr := pyLower address
  let labelFA : Option String × Option ℤ :=
    match o.identityQ with
    | some (a :: _) => (a.label, a.created_at)
    | _ => (none, none)
  let accInfo : ℕ × List Position × ℚ :=
    match o.accountQ with
    | some (acc :: _) =>
      (acc.triples_count + acc.deposits_count, acc.positions,
       (acc.positions.map Position.shares).sum / e18)
    | _ => (0, [], 0)
  let r0 : AddressRecord :=
    { address := addr
      label := labelFA.1
      staked := accInfo.2.2
      activity_count := accInfo.1
      attestations_received := (o.receivedQ.getD [])
      attestations_given := (o.givenQ.getD [])
      vouches := (o.vouchesQ.getD [])
      positions := accInfo.2.1
      trust_score := 0
      categories := []
      first_activity := labelFA.2
      verified_builder := !(o.builderQ.getD []).isEmpty }
  let r1 := { r0 with trust_score := calculate_trust_score now r0 }
  { r1 with categories := extract_categories r1 }

/-- The positions request layer of query 4.  The source issues a single
GraphQL request whose selection is `positions(limit: 100)` with no offset
variable and no loop (`src/bot.py` lines 439 and 466-479), so against an
abstract paginated source — a function from `(limit, offset)` to the page
of records — exactly one page is requested, at offset 0 with limit 100.
The second component counts the requests issued for positions. -/
def POSITIONS_PAGE_LIMIT : ℕ := 100

/-- See `POSITIONS_PAGE_LIMIT`. -/
def fetchPositionsPages (source : ℕ → ℕ → List Position) : List Position × ℕ :=
  (source POSITIONS_PAGE_LIMIT 0, 1)

/-- A well-behaved paginated source serving exactly `n` full pages of
`pageSize` records and an empty page thereafter (records are served from
the front of the virtual list, so a request at offset `off` with the
standard limit gets `pageSize` records while `off < n * pageSize`). -/
def pagedSource (pageSize n : ℕ) : ℕ → ℕ → List Position :=
  fun limit offset =>
    if offset < n * pageSize then List.replicate (min limit pageSize) ⟨0⟩ else []

/-- Reference formula for the trust score, written from the wording of the
specification (section 4.4): sum over the received attestations of
weight times time factor times one plus the capped vault-conviction bonus,
plus five per vouch, plus ten for a verified builder, plus the capped
activity bonus, plus the staking tier bonus, clamped to a minimum of 0 and
rounded to two decimal places. -/
def referenceTrustScore (now : ℤ) (data : AddressRecord) : ℚ :=
  pyRound2 (max
    ((data.attestations_received.map fun att =>
        get_predicate_weight att.predicate_label
          * calculate_time_decay now att.created_at
          * (1 + min (att.vault_total_shares / e18 / 10) 1)).sum
      + (data.vouches.length : ℚ) * 5
      + (if data.verified_builder then 10 else 0)
      + min ((data.activity_count : ℚ) / 10) 5
      + (if data.staked > 100 then 5
         else if data.staked > 10 then 2
         else if data.staked > 0 then 1 else 0))
    0)

/-- The classifier table as the specification states it: multiplier and
phrase set per class, in the fixed order high, medium, low, negative. -/
def classifierTable : List (ℚ × List String) :=
  [(3/2, highPhrases), (1, mediumPhrases), (1/2, lowPhrases), (-2, negativePhrases)]

/-- The classifier as the specification words it: the multiplier of the
first class in `classifierTable` containing a phrase `p` such that `p` is a
substring of the lower-cased label or the lower-cased label is a substring
of `p`; if no class matches, the medium multiplier 1. -/
def specClassify (label : String) : ℚ :=
  match classifierTable.find? (fun cw =>
      cw.2.any fun p => strIn p (pyLower label) || strIn (pyLower label) p) with
  | some cw => cw.1
  | none => 1

/-- The age of an attestation in whole elapsed days, as Python computes it:
`(now - att_time).days`, the floor of the difference in days. -/
def ageInDays (now t : ℤ) : ℤ :=
  (now - t).fdiv 86400

/-- A record with a single attestation carrying a parseable timestamp
(unix second 0) and an unclassified predicate (weight 1): used to exhibit
the wall clock as a hidden input of the scoring function. -/
def clockCexRecord : AddressRecord :=
  { address := "a", label := none, staked := 0, activity_count := 0,
    attestations_received := [⟨"x", "", some 0, 0⟩],
    attestations_given := [], vouches := [], positions := [],
    trust_score := 0, categories := [], first_activity := none,
    verified_builder := false }

/-- A record none of whose attestations carries a parseable timestamp. -/
def clockFreeRecord : AddressRecord :=
  { address := "b", label := none, staked := 12, activity_count := 7,
    attestations_received := [⟨"is endorsed by", "", none, 0⟩],
    attestations_given := [], vouches := [], positions := [],
    trust_score := 0, categories := [], first_activity := none,
    verified_builder := true }

/-- Sub-query outcomes in which every one of the six queries failed. -/
def allFailOutcomes : FetchOutcomes :=
  ⟨none, none, none, none, none, none⟩

/-- Sub-query outcomes whose account query succeeded with one position
holding a negative raw shares value (minus 10^18). -/
def negSharesOutcomes : FetchOutcomes :=
  ⟨none, none, none, some [⟨0, 0, [⟨-e18⟩]⟩], none, none⟩

/-- Sub-query outcomes whose account query succeeded with only nonnegative
raw shares values. -/
def posSharesOutcomes : FetchOutcomes :=
  ⟨none, none, none, some [⟨3, 4, [⟨5 * e18⟩, ⟨0⟩]⟩], none, none⟩

/-- A high-class attestation backed by 5 TRUST of vault shares. -/
def boundsAtt : Attestation :=
  ⟨"is trusted by", "obj", none, 5 * e18⟩

/-- A record with a large activity count and staked amount, for
instantiating the bonus bounds. -/
def boundsRecord : AddressRecord :=
  { address := "c", label := none, staked := 150, activity_count := 80,
    attestations_received := [], attestations_given := [], vouches := [],
    positions := [], trust_score := 0, categories := [], first_activity := none,
    verified_builder := false }

/-- A positively classified attestation. -/
def permAttA : Attestation := ⟨"is trusted by", "", none, 0⟩

/-- A negatively classified attestation, timestamped. -/
def permAttB : Attestation := ⟨"is flagged by", "", some 5, 0⟩

/-- A record receiving `permAttA` then `permAttB`. -/
def permRecord : AddressRecord :=
  { address := "d", label := none, staked := 0, activity_count := 3,
    attestations_received := [permAttA, permAttB],
    attestations_given := [], vouches := [permAttA], positions := [],
    trust_score := 0, categories := [], first_activity := none,
    verified_builder := false }

/-- C1: for every AddressRecord (and every evaluation instant), the trust
score computed by `calculate_trust_score` equals the reference formula of
the specification: the sum over attestations_received of
weight * time_factor * (1 + min(vault_total_shares / 1e18 / 10, 1)), plus
vouch_count * 5, plus 10 if verified_builder, plus min(activity_count / 10,
5), plus the staking tier bonus, clamped to a minimum of 0 and rounded to
two decimal places. -/
theorem trust_score_matches_reference (now : ℤ) (data : AddressRecord) :
    calculate_trust_score now data = referenceTrustScore now data := by
  rfl

/-- Counterexample to C2 as stated: one record, two evaluations on
identical inputs (the same AddressRecord, hence the same attestations,
timestamps, stake, activity and flags), different trust scores — the wall
clock read inside `calculate_time_decay` is a hidden input beyond the
classifier and decay tables.  At day 365 the single attestation still has
factor 1, at day 366 it has factor 1/2. -/
theorem trust_score_reads_clock_cex :
    calculate_trust_score (365 * 86400) clockCexRecord ≠
      calculate_trust_score (366 * 86400) clockCexRecord := by
  have hw : get_predicate_weight "x" = 1 := by
    simp +decide [get_predicate_weight, findWeight, PREDICATE_WEIGHTS, WEIGHT_MULTIPLIERS]
  have h1 : ((365 * 86400 : ℤ) - 0).fdiv 86400 = 365 := by decide
  have h2 : ((366 * 86400 : ℤ) - 0).fdiv 86400 = 366 := by decide
  simp only [calculate_trust_score, attestationScore, stakeBonus, calculate_time_decay,
    clockCexRecord, activityBonus, stakingTierBonus, List.map_cons, List.map_nil,
    h1, h2, hw, TIME_DECAY_DAYS, TIME_DECAY_FACTOR]
  norm_num [e18, pyRound2, roundHalfEven]

/-- C2 (amended): the scoring function is deterministic and pure as a
function of the AddressRecord plus the current wall-clock time; the clock
only enters through the time decay of parseable attestation timestamps, so
when no received attestation carries one, evaluations at any two instants
yield identical scores. -/
theorem trust_score_deterministic_given_clock (data : AddressRecord) (now1 now2 : ℤ)
    (h : ∀ att ∈ data.attestations_received, att.created_at = none) :
    calculate_trust_score now1 data = calculate_trust_score now2 data := by
  have hm : data.attestations_received.map (attestationScore now1) =
      data.attestations_received.map (attestationScore now2) :=
    List.map_congr_left fun a ha => by
      simp [attestationScore, h a ha, calculate_time_decay]
  simp only [calculate_trust_score, hm]

/-- Witness for `trust_score_deterministic_given_clock` at a concrete
record and two concrete instants. -/
theorem trust_score_deterministic_given_clock_witness :
    calculate_trust_score 0 clockFreeRecord =
      calculate_trust_score 999999999 clockFreeRecord :=
  trust_score_deterministic_given_clock clockFreeRecord 0 999999999 (by decide)

/-- Counterexample to C3 as stated: against a source serving pages of 100
records (the limit the code requests) for 2 consecutive pages and an empty
page thereafter, the assembled position list has length 100 — not
N * page_size = 200 — and exactly 1 page request is issued — not N + 1 = 3:
the code performs a single `positions(limit: 100)` query with no
pagination loop. -/
theorem positions_pagination_cex :
    (fetchPositionsPages (pagedSource 100 2)).1.length = 100 ∧
    (fetchPositionsPages (pagedSource 100 2)).2 = 1 ∧
    ¬ ((fetchPositionsPages (pagedSource 100 2)).1.length = 2 * 100 ∧
       (fetchPositionsPages (pagedSource 100 2)).2 = 2 + 1) := by
  decide

/-- C3 (amended): the fetcher does not paginate the positions query; for
every source serving full pages of the requested limit 100 for at least
one page, the assembled position list is exactly the first page (100
records) and exactly one page request is issued. -/
theorem positions_single_page (n : ℕ) (h : 1 ≤ n) :
    (fetchPositionsPages (pagedSource 100 n)).1.length = 100 ∧
    (fetchPositionsPages (pagedSource 100 n)).2 = 1 := by
  have hn : (0:ℕ) < n * 100 := by omega
  exact ⟨by simp [fetchPositionsPages, pagedSource, POSITIONS_PAGE_LIMIT, hn], rfl⟩

/-- Witness for `positions_single_page` at a source serving 7 full pages. -/
theorem positions_single_page_witness :
    (1:ℕ) ≤ 7 ∧
    (fetchPositionsPages (pagedSource 100 7)).1.length = 100 ∧
    (fetchPositionsPages (pagedSource 100 7)).2 = 1 :=
  ⟨by norm_num, positions_single_page 7 (by norm_num)⟩

/-- Bridge: `get_predicate_weight` agrees everywhere with the
first-matching-class table lookup the specification describes. -/
theorem classifier_agrees (label : String) :
    get_predicate_weight label = specClassify label := by
  simp only [get_predicate_weight, specClassify, PREDICATE_WEIGHTS, classifierTable,
    findWeight, List.find?, categoryMatches]
  cases h1 : highPhrases.any fun p => strIn p (pyLower label) || strIn (pyLower label) p <;>
    simp only [h1] <;>
  [skip; simp [WEIGHT_MULTIPLIERS]]
  cases h2 : mediumPhrases.any fun p => strIn p (pyLower label) || strIn (pyLower label) p <;>
    simp only [h2] <;>
  [skip; simp [WEIGHT_MULTIPLIERS]]
  cases h3 : lowPhrases.any fun p => strIn p (pyLower label) || strIn (pyLower label) p <;>
    simp only [h3] <;>
  [skip; simp [WEIGHT_MULTIPLIERS]]
  cases h4 : negativePhrases.any fun p => strIn p (pyLower label) || strIn (pyLower label) p <;>
    simp [h4, WEIGHT_MULTIPLIERS]

/-- C4: for every predicate label the classifier returns the multiplier of
the first class in the fixed order high (1.5), medium (1.0), low (0.5),
negative (-2.0) containing a phrase in symmetric-containment relation with
the lower-cased label, defaulting to the medium multiplier 1.0 when no
phrase of any class matches; in particular a label matching both a high
phrase and a medium phrase classifies as high. -/
theorem classifier_first_match_in_table_order :
    (∀ label : String, get_predicate_weight label = specClassify label) ∧
    get_predicate_weight "is trusted by and is known by" = 3/2 := by
  refine ⟨classifier_agrees, ?_⟩
  simp +decide [get_predicate_weight, findWeight, PREDICATE_WEIGHTS, WEIGHT_MULTIPLIERS]

/-- C5: the time decay is a two-valued step function — an absent, empty or
unparseable timestamp yields factor 1, and a parsed timestamp yields 1/2
exactly when the attestation's age in whole elapsed days strictly exceeds
365, and 1 otherwise. -/
theorem time_decay_step_function (now : ℤ) :
    calculate_time_decay now none = 1 ∧
    ∀ t : ℤ, calculate_time_decay now (some t) =
      if 365 < ageInDays now t then 1/2 else 1 := by
  refine ⟨rfl, fun t => ?_⟩
  simp [calculate_time_decay, ageInDays, TIME_DECAY_DAYS, TIME_DECAY_FACTOR]

/-- The time decay factor is never negative. -/
theorem time_decay_nonneg (now : ℤ) (ts : Option ℤ) :
    0 ≤ calculate_time_decay now ts := by
  cases ts
  · simp [calculate_time_decay]
  · simp only [calculate_time_decay]
    split_ifs <;> norm_num [TIME_DECAY_FACTOR]

/-- C6: the per-attestation stake bonus never exceeds 1 whatever the vault
shares; for nonnegative vault shares the attestation contribution is
bounded in magnitude by 2 * |weight| * time_factor; the activity bonus
never exceeds 5; and the staking tier bonus is exactly one of 0, 1, 2, 5. -/
theorem score_bonuses_bounded (att : Attestation) (now : ℤ) (data : AddressRecord) :
    stakeBonus att ≤ 1 ∧
    (0 ≤ att.vault_total_shares →
      |attestationScore now att| ≤
        2 * |get_predicate_weight att.predicate_label|
          * calculate_time_decay now att.created_at) ∧
    activityBonus data.activity_count ≤ 5 ∧
    stakingTierBonus data.staked ∈ ({0, 1, 2, 5} : Set ℚ) := by
  refine ⟨min_le_right _ _, fun hsh => ?_, min_le_right _ _, ?_⟩
  · set w := get_predicate_weight att.predicate_label with hw
    set tf := calculate_time_decay now att.created_at with htf
    have htf0 : 0 ≤ tf := time_decay_nonneg now att.created_at
    have hsb0 : 0 ≤ stakeBonus att := by
      apply le_min _ zero_le_one
      have : (0:ℚ) < e18 := by norm_num [e18]
      positivity
    have hsb1 : stakeBonus att ≤ 1 := min_le_right _ _
    have habs : |attestationScore now att| = |w| * (tf * (1 + stakeBonus att)) := by
      simp only [attestationScore, ← hw, ← htf]
      rw [abs_mul, abs_mul, abs_of_nonneg htf0,
        abs_of_nonneg (by linarith : (0:ℚ) ≤ 1 + stakeBonus att)]
      ring
    rw [habs]
    nlinarith [mul_nonneg (mul_nonneg (abs_nonneg w) htf0) (sub_nonneg.mpr hsb1)]
  · simp only [stakingTierBonus]
    split_ifs <;> simp

/-- Witness for `score_bonuses_bounded` at a concrete attestation (high
class, 5 TRUST of vault shares), instant and record, with the nonnegative
shares hypothesis discharged. -/
theorem score_bonuses_bounded_witness :
    (0:ℚ) ≤ boundsAtt.vault_total_shares ∧
    stakeBonus boundsAtt ≤ 1 ∧
    |attestationScore 3 boundsAtt| ≤
      2 * |get_predicate_weight boundsAtt.predicate_label|
        * calculate_time_decay 3 boundsAtt.created_at ∧
    activityBonus boundsRecord.activity_count ≤ 5 ∧
    stakingTierBonus boundsRecord.staked ∈ ({0, 1, 2, 5} : Set ℚ) := by
  have h0 : (0:ℚ) ≤ boundsAtt.vault_total_shares := by norm_num [boundsAtt, e18]
  obtain ⟨a, b, c, d⟩ := score_bonuses_bounded boundsAtt 3 boundsRecord
  exact ⟨h0, a, b h0, c, d⟩

/-- C7: the trust score is invariant under any permutation of the
attestations_received list (the per-attestation contributions are summed,
and sums are permutation-invariant). -/
theorem trust_score_perm_invariant (now : ℤ) (data : AddressRecord)
    (l : List Attestation) (h : data.attestations_received.Perm l) :
    calculate_trust_score now { data with attestations_received := l } =
      calculate_trust_score now data := by
  have hs : (l.map (attestationScore now)).sum =
      (data.attestations_received.map (attestationScore now)).sum :=
    ((h.map (attestationScore now)).sum_eq).symm
  cases data
  simp only [calculate_trust_score] at hs ⊢
  rw [hs]

/-- Witness for `trust_score_perm_invariant`: swapping the two
attestations of a concrete record leaves the score unchanged. -/
theorem trust_score_perm_invariant_witness :
    calculate_trust_score 0 { permRecord with attestations_received := [permAttB, permAttA] } =
      calculate_trust_score 0 permRecord :=
  trust_score_perm_invariant 0 permRecord [permAttB, permAttA]
    (List.Perm.swap permAttB permAttA [])

/-- C8: for every combination of sub-query outcomes the fetch operation
returns a structurally complete AddressRecord (it is a total function into
`AddressRecord`), and each failed sub-query leaves its field at the zero
value: absent label and first activity, empty attestation/vouch/position
lists, zero activity count, zero staked amount, false builder flag. -/
theorem fetch_defaults_on_failure (now : ℤ) (address : String) (o : FetchOutcomes) :
    (fetch_comprehensive_data now address o).address = pyLower address ∧
    (o.identityQ = none → (fetch_comprehensive_data now address o).label = none ∧
        (fetch_comprehensive_data now address o).first_activity = none) ∧
    (o.receivedQ = none →
        (fetch_comprehensive_data now address o).attestations_received = []) ∧
    (o.givenQ = none → (fetch_comprehensive_data now address o).attestations_given = []) ∧
    (o.accountQ = none → (fetch_comprehensive_data now address o).activity_count = 0 ∧
        (fetch_comprehensive_data now address o).positions = [] ∧
        (fetch_comprehensive_data now address o).staked = 0) ∧
    (o.vouchesQ = none → (fetch_comprehensive_data now address o).vouches = []) ∧
    (o.builderQ = none → (fetch_comprehensive_data now address o).verified_builder = false) := by
  refine ⟨rfl, fun h => ?_, fun h => ?_, fun h => ?_, fun h => ?_, fun h => ?_, fun h => ?_⟩ <;>
    simp [fetch_comprehensive_data, h]

/-- Witness for `fetch_defaults_on_failure`: with every sub-query failed,
the assembled record is the zero-valued profile. -/
theorem fetch_defaults_on_failure_witness :
    (fetch_comprehensive_data 0 "0xAB" allFailOutcomes).attestations_received = [] ∧
    (fetch_comprehensive_data 0 "0xAB" allFailOutcomes).staked = 0 ∧
    (fetch_comprehensive_data 0 "0xAB" allFailOutcomes).verified_builder = false ∧
    (fetch_comprehensive_data 0 "0xAB" allFailOutcomes).label = none :=
  ⟨(fetch_defaults_on_failure 0 "0xAB" allFailOutcomes).2.2.1 rfl,
   ((fetch_defaults_on_failure 0 "0xAB" allFailOutcomes).2.2.2.2.1 rfl).2.2,
   (fetch_defaults_on_failure 0 "0xAB" allFailOutcomes).2.2.2.2.2.2 rfl,
   ((fetch_defaults_on_failure 0 "0xAB" allFailOutcomes).2.1 rfl).1⟩

/-- Counterexample to C9 as stated: the code parses raw shares with
`float(...)` and performs no unsigned coercion, so a source returning one
position with shares -10^18 yields a negative staked amount (-1). -/
theorem staked_negative_cex :
    (fetch_comprehensive_data 0 "a" negSharesOutcomes).staked < 0 := by
  simp [fetch_comprehensive_data, negSharesOutcomes]
  norm_num [e18]

/-- C9 (amended): the staked amount assembled by the fetcher is nonnegative
whenever every raw position shares value returned by the account query is
nonnegative (the sum of nonnegative shares, scaled by 10^-18, is
nonnegative). -/
theorem staked_nonneg_of_nonneg_shares (now : ℤ) (address : String) (o : FetchOutcomes)
    (h : ∀ acc ∈ o.accountQ.getD [], ∀ p ∈ acc.positions, 0 ≤ p.shares) :
    0 ≤ (fetch_comprehensive_data now address o).staked := by
  rcases ho : o.accountQ with _ | accs
  · simp [fetch_comprehensive_data, ho]
  · rcases accs with _ | ⟨acc, rest⟩
    · simp [fetch_comprehensive_data, ho]
    · have hsum : 0 ≤ (acc.positions.map Position.shares).sum := by
        apply List.sum_nonneg
        intro x hx
        obtain ⟨p, hp, rfl⟩ := List.mem_map.mp hx
        exact h acc (by simp [ho]) p hp
      have he : (0:ℚ) ≤ e18 := by norm_num [e18]
      simp only [fetch_comprehensive_data, ho]
      exact div_nonneg hsum he

/-- Witness for `staked_nonneg_of_nonneg_shares` at concrete outcomes with
nonnegative shares. -/
theorem staked_nonneg_of_nonneg_shares_witness :
    0 ≤ (fetch_comprehensive_data 0 "a" posSharesOutcomes).staked := by
  apply staked_nonneg_of_nonneg_shares
  intro acc hacc p hp
  simp only [posSharesOutcomes, Option.getD_some, List.mem_singleton] at hacc
  subst hacc
  simp only [List.mem_cons, List.mem_singleton] at hp
  rcases hp with rfl | rfl | h
  · norm_num [e18]
  · norm_num
  · cases h

/-- C10: the empty predicate label classifies as high (multiplier 1.5)
rather than the documented medium default: under symmetric containment the
empty lower-cased label is a substring of every curated phrase and the
high class is examined first; likewise every label whose lower-casing is a
substring of some high phrase classifies as high. -/
theorem empty_label_classifies_high :
    get_predicate_weight "" = 3/2 ∧
    ∀ label : String, (∃ p ∈ highPhrases, strIn (pyLower label) p = true) →
      get_predicate_weight label = 3/2 := by
  constructor
  · simp +decide [get_predicate_weight, findWeight, PREDICATE_WEIGHTS, WEIGHT_MULTIPLIERS]
  · rintro label ⟨p, hp, hs⟩
    have hc : categoryMatches (pyLower label) highPhrases = true := by
      simp only [categoryMatches, List.any_eq_true]
      exact ⟨p, hp, by simp [hs]⟩
    simp [get_predicate_weight, PREDICATE_WEIGHTS, findWeight, hc, WEIGHT_MULTIPLIERS]

/-- Witness for `empty_label_classifies_high`: the truncated label
"is trusted" is a substring of the high phrase "is trusted by" and
classifies as high. -/
theorem empty_label_classifies_high_witness :
    get_predicate_weight "is trusted" = 3/2 :=
  empty_label_classifies_high.2 "is trusted" ⟨"is trusted by", by decide, by decide⟩
